import Mathlib

/-!
Verification of the `gurps_manager` data model
(`src/apps/gurps_manager/models.py`) against its natural-language
specification.

The Python module is embedded shallowly:

* `validate_quarter` works on `decimal.Decimal` values.  A Python float is a
  rational number, and all `Decimal` arithmetic performed by the validator is
  exact rational arithmetic, so the input is modelled as `ℚ`.
  `Decimal(number).quantize` to two places rounds to a whole number of
  hundredths using the default `ROUND_HALF_EVEN` mode; the result is modelled
  as that integer number of hundredths (`quantize2`).  Under the default
  context (precision 28, `InvalidOperation` trapped) the quantize step raises
  `decimal.InvalidOperation` whenever the rounded coefficient needs more than
  28 digits, that is when the count of hundredths reaches 10^28 in magnitude
  (|value| of about 1e26 and beyond); `decimalQuantize2` and
  `validate_quarterChecked` model this trap, while `quantize2` and
  `validate_quarter` describe the in-precision behaviour, exact whenever the
  rounded count of hundredths stays strictly below 10^28.  The `Decimal`
  remainder operator yields the remainder after truncating division (sign of
  the dividend), which on integer hundredths is `Int.tmod`.  Raising
  `ValidationError(msg)` versus returning `None` is modelled as
  `Except String Unit`, and the three-way outcome of the checked model
  (silent return, `ValidationError`, `decimal.InvalidOperation`) as
  `PyOutcome`.
* Each Django model becomes a structure; `ForeignKey` columns become the
  `Nat` id of the referenced row.  `IntegerField` is `Int` (Python ints),
  `FloatField` is `ℚ`, text fields are `String`.
* Python attribute access `self.x` is dynamic: it fails with an
  `AttributeError` when `x` is not a declared column.  The derived-attribute
  methods of `Character` are therefore defined through a `getattr` lookup
  returning `Option Int`, so a method that touches an undeclared attribute
  (such as `bonus_will` in `Character.will`) evaluates to `none`.
* The database is a `Store` of rows per table.  Saving a row runs the declared
  field validators first (the Django validation step) and only then inserts;
  deleting a `Character` follows the Django default `on_delete=CASCADE` for
  every `ForeignKey(Character)` declared in the module.
-/

/-- Half-even rounding of a rational to the nearest integer
(the default `ROUND_HALF_EVEN` of the Python `decimal` module). -/
def roundHalfEven (q : ℚ) : Int :=
  let f := ⌊q⌋
  let r := q - (f : ℚ)
  if r < 1/2 then f
  else if 1/2 < r then f + 1
  else if f % 2 = 0 then f else f + 1

/-- Quantization `Decimal(number).quantize` to 0.01: the value rounded to two
decimal places, represented as an integer count of hundredths.  This is the
in-precision result; it agrees with the default decimal context exactly when
its magnitude stays below 10^28 (see `decimalQuantize2` for the
`InvalidOperation` trap beyond that bound). -/
def quantize2 (q : ℚ) : Int := roundHalfEven (q * 100)

/-- Remainder `Decimal % Decimal(0.25)` on a value of `n` hundredths: result of
truncating division by 25 hundredths, sign following the dividend. -/
def decimalMod25 (n : Int) : Int := Int.tmod n 25

/-- Function `validate_quarter` from `models.py`: raise `ValidationError` when the
value quantized to two decimal places has nonzero remainder modulo 0.25,
otherwise return silently.  This models the behaviour on inputs within the
default decimal precision (rounded hundredths below 10^28 in magnitude);
`validate_quarterChecked` adds the `decimal.InvalidOperation` path that the
real quantize takes beyond that bound. -/
def validate_quarter (number : ℚ) : Except String Unit :=
  if decimalMod25 (quantize2 number) ≠ 0 then
    Except.error (toString number ++ " is not divisible by 0.25.")
  else
    Except.ok ()

/-- Outcome of calling the Python validator: silent return, a raised
`ValidationError`, or a raised `decimal.InvalidOperation` escaping from the
quantize step under the default context. -/
inductive PyOutcome
  | ok
  | validationError (msg : String)
  | invalidOperation
deriving DecidableEq

/-- Quantization to hundredths under the default decimal context
(precision 28, `InvalidOperation` trapped): the rounding succeeds only while
the resulting coefficient fits in 28 digits, i.e. the count of hundredths is
strictly between -10^28 and 10^28; otherwise `quantize` raises
`decimal.InvalidOperation`, modelled as `none`. -/
def decimalQuantize2 (q : ℚ) : Option Int :=
  if roundHalfEven (q * 100) < 10 ^ 28 ∧ -(10 ^ 28) < roundHalfEven (q * 100) then
    some (roundHalfEven (q * 100))
  else none

/-- Function `validate_quarter` including the default-context precision trap:
for values whose rounded count of hundredths reaches 10^28 in magnitude
(|value| of about 1e26 and beyond) the quantize step raises
`decimal.InvalidOperation` — neither silent success nor `ValidationError`. -/
def validate_quarterChecked (number : ℚ) : PyOutcome :=
  match decimalQuantize2 number with
  | none => PyOutcome.invalidOperation
  | some n =>
    if decimalMod25 n ≠ 0 then
      PyOutcome.validationError (toString number ++ " is not divisible by 0.25.")
    else
      PyOutcome.ok

/-! The Django models of `models.py`, as structures.  Foreign-key columns
hold the `Nat` id of the referenced row; `IntegerField` is `Int`,
`FloatField` is `ℚ`, text columns are `String`. -/

structure Campaign where
  name : String
  description : String
deriving DecidableEq

structure SkillSet where
  name : String
deriving DecidableEq

structure Character where
  campaign : Nat
  name : String
  description : String
  story : String
  strength : Int
  dexterity : Int
  intelligence : Int
  health : Int
  magery : Int
  bonus_fatigue : Int
  bonus_hitpoints : Int
  bonus_alertness : Int
  bonus_willpower : Int
  bonus_fright : Int
  bonus_speed : Int
  bonus_movement : Int
  bonus_dodge : Int
  bonus_initiative : Int
  free_strength : Int
  free_dexterity : Int
  free_intelligence : Int
  free_health : Int
  total_points : ℚ
  used_fatigue : ℚ
  appearance : Int
  wealth : Int
  eidetic_memory : Int
  muscle_memory : Int
deriving DecidableEq

structure Trait where
  character : Nat
  name : String
  description : String
  points : ℚ
deriving DecidableEq

structure Skill where
  skillset : Nat
  name : String
  category : Int
  difficulty : Int
deriving DecidableEq

structure CharacterSkill where
  skill : Nat
  character : Nat
  bonus_level : Int
  points : ℚ
deriving DecidableEq

structure Spell where
  name : String
  school : String
  resist : String
  cast_time : Int
  duration : Int
  initial_fatigue_cost : Int
  maintainance_fatigue_cost : Int
  difficulty : Int
deriving DecidableEq

structure CharacterSpell where
  spell : Nat
  character : Nat
  bonus_level : Int
  points : ℚ
deriving DecidableEq

structure Item where
  name : String
  description : String
  cost : ℚ
  weight : ℚ
deriving DecidableEq

structure Possession where
  item : Nat
  character : Nat
  quantity : Int
deriving DecidableEq

structure HitLocation where
  character : Nat
  name : String
  status : String
  passive_damage_resistance : Int
  damage_resistance : Int
  damage_taken : Int
deriving DecidableEq

/-- Python attribute lookup on a `Character` for integer-valued attributes:
`some` for each declared integer column, `none` (an `AttributeError`) for
any other name. -/
def Character.getattr (c : Character) : String → Option Int
  | "strength" => some c.strength
  | "dexterity" => some c.dexterity
  | "intelligence" => some c.intelligence
  | "health" => some c.health
  | "magery" => some c.magery
  | "bonus_fatigue" => some c.bonus_fatigue
  | "bonus_hitpoints" => some c.bonus_hitpoints
  | "bonus_alertness" => some c.bonus_alertness
  | "bonus_willpower" => some c.bonus_willpower
  | "bonus_fright" => some c.bonus_fright
  | "bonus_speed" => some c.bonus_speed
  | "bonus_movement" => some c.bonus_movement
  | "bonus_dodge" => some c.bonus_dodge
  | "bonus_initiative" => some c.bonus_initiative
  | "free_strength" => some c.free_strength
  | "free_dexterity" => some c.free_dexterity
  | "free_intelligence" => some c.free_intelligence
  | "free_health" => some c.free_health
  | "appearance" => some c.appearance
  | "wealth" => some c.wealth
  | "eidetic_memory" => some c.eidetic_memory
  | "muscle_memory" => some c.muscle_memory
  | _ => none

/-- Method `Character.fatigue`: `self.strength + self.bonus_fatigue`. -/
def Character.fatigue (c : Character) : Option Int := do
  return (← c.getattr "strength") + (← c.getattr "bonus_fatigue")

/-- Method `Character.hitpoints`: `self.health + self.bonus_hitpoints`. -/
def Character.hitpoints (c : Character) : Option Int := do
  return (← c.getattr "health") + (← c.getattr "bonus_hitpoints")

/-- Method `Character.alertness`: `self.intelligence + self.bonus_alertness`. -/
def Character.alertness (c : Character) : Option Int := do
  return (← c.getattr "intelligence") + (← c.getattr "bonus_alertness")

/-- Method `Character.will`: `self.intelligence + self.bonus_will` — note the source
reads `bonus_will`, which is not a declared column. -/
def Character.will (c : Character) : Option Int := do
  return (← c.getattr "intelligence") + (← c.getattr "bonus_will")

/-- Method `Character.fright`: `self.intelligence + self.bonus_fright`. -/
def Character.fright (c : Character) : Option Int := do
  return (← c.getattr "intelligence") + (← c.getattr "bonus_fright")

/-- Modelled from the spec: no `initiative` method exists in
`src/apps/gurps_manager/models.py` (only `test_models.py` calls it); the
formula in the spec is `((intelligence + dexterity) / 4) + bonus_initiative`,
with the Python true division, hence a rational result. -/
def Character.initiative (c : Character) : ℚ :=
  ((c.intelligence : ℚ) + (c.dexterity : ℚ)) / 4 + (c.bonus_initiative : ℚ)

/-- Modelled from the spec: no `no_encumbrance` method exists in
`src/apps/gurps_manager/models.py` (only `test_models.py` calls it); the
formula in the spec is `strength * 2`. -/
def Character.no_encumbrance (c : Character) : Int := c.strength * 2

/-- Modelled from the spec: no `light_encumbrance` method exists in
`src/apps/gurps_manager/models.py`; the formula in the spec is `strength * 4`. -/
def Character.light_encumbrance (c : Character) : Int := c.strength * 4

/-- Modelled from the spec: no `medium_encumbrance` method exists in
`src/apps/gurps_manager/models.py`; the formula in the spec is `strength * 6`. -/
def Character.medium_encumbrance (c : Character) : Int := c.strength * 6

/-- Modelled from the spec: no `heavy_encumbrance` method exists in
`src/apps/gurps_manager/models.py`; the formula in the spec is `strength * 12`. -/
def Character.heavy_encumbrance (c : Character) : Int := c.strength * 12

/-- Modelled from the spec: no `extra_heavy_encumbrance` method exists in
`src/apps/gurps_manager/models.py`; the formula in the spec is `strength * 20`. -/
def Character.extra_heavy_encumbrance (c : Character) : Int := c.strength * 20

/-- The `FloatField` declarations of `models.py`, in source order, each with
the flag telling whether its `validators` list contains `validate_quarter`. -/
def floatFieldDecls : List (String × String × Bool) :=
  [("Character", "total_points", true),
   ("Character", "used_fatigue", true),
   ("Trait", "points", true),
   ("CharacterSkill", "points", true),
   ("CharacterSpell", "points", true),
   ("Item", "cost", false),
   ("Item", "weight", false)]

/-- Field validation of a `Character` at write time: run `validate_quarter`
on each `FloatField` that declares it (`total_points`, then `used_fatigue`). -/
def Character.clean (c : Character) : Except String Unit :=
  match validate_quarter c.total_points with
  | Except.error e => Except.error e
  | Except.ok _ => validate_quarter c.used_fatigue

/-- Field validation of a `Trait` at write time: `validate_quarter` on `points`. -/
def Trait.clean (t : Trait) : Except String Unit :=
  validate_quarter t.points

/-- Field validation of a `CharacterSkill` at write time. -/
def CharacterSkill.clean (k : CharacterSkill) : Except String Unit :=
  validate_quarter k.points

/-- Field validation of a `CharacterSpell` at write time. -/
def CharacterSpell.clean (p : CharacterSpell) : Except String Unit :=
  validate_quarter p.points

/-- The persistent store: one table per model, each a list of rows keyed by id. -/
structure Store where
  campaigns : List (Nat × Campaign)
  skillsets : List (Nat × SkillSet)
  characters : List (Nat × Character)
  traits : List (Nat × Trait)
  skills : List (Nat × Skill)
  characterSkills : List (Nat × CharacterSkill)
  spells : List (Nat × Spell)
  characterSpells : List (Nat × CharacterSpell)
  items : List (Nat × Item)
  possessions : List (Nat × Possession)
  hitLocations : List (Nat × HitLocation)
deriving DecidableEq

/-- Validated write of a `Character` row: the row is inserted only when its
field validators pass; otherwise the `ValidationError` is surfaced and no
store is produced. -/
def Store.saveCharacter (s : Store) (i : Nat) (c : Character) : Except String Store :=
  match Character.clean c with
  | Except.error e => Except.error e
  | Except.ok _ => Except.ok { s with characters := (i, c) :: s.characters }

/-- Validated write of a `Trait` row. -/
def Store.saveTrait (s : Store) (i : Nat) (t : Trait) : Except String Store :=
  match Trait.clean t with
  | Except.error e => Except.error e
  | Except.ok _ => Except.ok { s with traits := (i, t) :: s.traits }

/-- Validated write of a `CharacterSkill` row. -/
def Store.saveCharacterSkill (s : Store) (i : Nat) (k : CharacterSkill) :
    Except String Store :=
  match CharacterSkill.clean k with
  | Except.error e => Except.error e
  | Except.ok _ => Except.ok { s with characterSkills := (i, k) :: s.characterSkills }

/-- Validated write of a `CharacterSpell` row. -/
def Store.saveCharacterSpell (s : Store) (i : Nat) (p : CharacterSpell) :
    Except String Store :=
  match CharacterSpell.clean p with
  | Except.error e => Except.error e
  | Except.ok _ => Except.ok { s with characterSpells := (i, p) :: s.characterSpells }

/-- Deletion of the `Character` with id `cid`.  Every model declaring
`ForeignKey(Character)` (`Trait`, `CharacterSkill`, `CharacterSpell`,
`Possession`, `HitLocation`) follows the default `on_delete=CASCADE`, so all
of its rows referencing `cid` are removed with the character row itself. -/
def Store.deleteCharacter (s : Store) (cid : Nat) : Store :=
  { s with
    characters := s.characters.filter fun p => p.1 ≠ cid
    traits := s.traits.filter fun p => p.2.character ≠ cid
    characterSkills := s.characterSkills.filter fun p => p.2.character ≠ cid
    characterSpells := s.characterSpells.filter fun p => p.2.character ≠ cid
    possessions := s.possessions.filter fun p => p.2.character ≠ cid
    hitLocations := s.hitLocations.filter fun p => p.2.character ≠ cid }

/-! Concrete fixtures used in the closed example and witness theorems. -/

/-- A sample character row (all columns populated with well-typed values). -/
def baseCharacter : Character :=
  { campaign := 1, name := "Ramirez", description := "", story := ""
    strength := 10, dexterity := 8, intelligence := 12, health := 11, magery := 0
    bonus_fatigue := 2, bonus_hitpoints := 3, bonus_alertness := 1
    bonus_willpower := 3, bonus_fright := 4, bonus_speed := 0, bonus_movement := 0
    bonus_dodge := 0, bonus_initiative := 1
    free_strength := 0, free_dexterity := 0, free_intelligence := 0, free_health := 0
    total_points := 100, used_fatigue := 0
    appearance := 0, wealth := 0, eidetic_memory := 0, muscle_memory := 0 }

/-- Copy of `baseCharacter` with strength 5, for the encumbrance examples. -/
def strengthFiveCharacter : Character := { baseCharacter with strength := 5 }

/-- A store with no rows. -/
def emptyStore : Store := ⟨[], [], [], [], [], [], [], [], [], [], []⟩

/-- A trait whose `points` value 0.26 violates the quarter rule. -/
def badTrait : Trait := { character := 1, name := "Greed", description := "", points := 26/100 }

/-- A trait with a negative quarter-multiple `points` value, -0.25. -/
def negTrait : Trait := { character := 1, name := "Debt", description := "", points := -(1/4) }

/-- A trait of character 1 with a valid `points` value. -/
def trait1 : Trait := { character := 1, name := "Luck", description := "", points := 3/4 }

/-- A trait of character 2 with a valid `points` value. -/
def trait2 : Trait := { character := 2, name := "Greed", description := "", points := 1/2 }

/-- A populated store: two characters, rows owned by each, and unrelated rows. -/
def sampleStore : Store :=
  { campaigns := [(1, ⟨"Highlands", ""⟩)]
    skillsets := [(1, ⟨"Combat"⟩)]
    characters := [(1, baseCharacter), (2, { baseCharacter with name := "Duncan" })]
    traits := [(1, trait1), (2, trait2)]
    skills := [(1, ⟨1, "Dagger", 3, 1⟩)]
    characterSkills := [(1, ⟨1, 1, 0, 1/2⟩), (2, ⟨1, 2, 0, 1/4⟩)]
    spells := [(1, ⟨"Fireball", "Fire", "", 1, 1, 1, 1, 1⟩)]
    characterSpells := [(1, ⟨1, 1, 0, 1/2⟩)]
    items := [(1, ⟨"Katana", "", 100, 6⟩)]
    possessions := [(1, ⟨1, 1, 1⟩), (2, ⟨1, 2, 2⟩)]
    hitLocations := [(1, ⟨1, "Head", "", 0, 0, 0⟩), (2, ⟨2, "Torso", "", 0, 0, 1⟩)] }

/-! Evaluation lemmas for `roundHalfEven` and `quantize2`. -/

theorem roundHalfEven_of_lt_half (q : ℚ) (f : Int) (h1 : (f : ℚ) ≤ q)
    (h2 : q < (f : ℚ) + 1/2) : roundHalfEven q = f := by
  have hf : ⌊q⌋ = f := Int.floor_eq_iff.mpr ⟨h1, by linarith⟩
  simp only [roundHalfEven, hf]
  rw [if_pos (by linarith)]

theorem roundHalfEven_of_gt_half (q : ℚ) (f : Int) (h1 : (f : ℚ) + 1/2 < q)
    (h2 : q < (f : ℚ) + 1) : roundHalfEven q = f + 1 := by
  have hf : ⌊q⌋ = f := Int.floor_eq_iff.mpr ⟨by linarith, by linarith⟩
  simp only [roundHalfEven, hf]
  rw [if_neg (by linarith), if_pos (by linarith)]

theorem roundHalfEven_of_half (q : ℚ) (f : Int) (h : q = (f : ℚ) + 1/2) :
    roundHalfEven q = if f % 2 = 0 then f else f + 1 := by
  have hf : ⌊q⌋ = f := Int.floor_eq_iff.mpr ⟨by linarith, by linarith⟩
  simp only [roundHalfEven, hf]
  rw [if_neg (by rw [h]; simp), if_neg (by rw [h]; simp)]

theorem roundHalfEven_intCast (n : Int) : roundHalfEven (n : ℚ) = n :=
  roundHalfEven_of_lt_half _ n le_rfl (by linarith)

theorem quantize2_eq_of_mul_eq_intCast (q : ℚ) (n : Int) (h : q * 100 = (n : ℚ)) :
    quantize2 q = n := by
  rw [quantize2, h, roundHalfEven_intCast]

theorem quantize2_quarter (k : Int) : quantize2 ((k : ℚ) / 4) = 25 * k :=
  quantize2_eq_of_mul_eq_intCast _ _ (by push_cast; ring)

/-! Behaviour of `validate_quarter`. -/

theorem tmod25_eq_zero_iff (n : Int) : Int.tmod n 25 = 0 ↔ (25 : Int) ∣ n :=
  Int.dvd_iff_tmod_eq_zero.symm

theorem validate_quarter_ok_iff (q : ℚ) :
    validate_quarter q = Except.ok () ↔ (25 : Int) ∣ quantize2 q := by
  rw [validate_quarter, decimalMod25, ← tmod25_eq_zero_iff]
  split_ifs with h
  · simp [h]
  · simp [not_not.mp h]

theorem validate_quarter_error_of_not_dvd (q : ℚ)
    (h : ¬ (25 : Int) ∣ quantize2 q) :
    validate_quarter q = Except.error (toString q ++ " is not divisible by 0.25.") := by
  rw [validate_quarter, decimalMod25]
  rw [if_pos (by rw [ne_eq, tmod25_eq_zero_iff]; exact h)]

theorem validate_quarter_error_msg (q : ℚ) (e : String)
    (h : validate_quarter q = Except.error e) :
    e = toString q ++ " is not divisible by 0.25." := by
  rw [validate_quarter] at h
  split_ifs at h with hc
  · exact ((Except.error.injEq _ _).mp h).symm


/-! Write-time validation lemmas. -/

theorem validate_quarter_eq_ok (q : ℚ) (u : Unit)
    (h : validate_quarter q = Except.ok u) : (25 : Int) ∣ quantize2 q := by
  obtain ⟨⟩ := u
  exact (validate_quarter_ok_iff q).mp h

theorem quantize2_def (q : ℚ) : quantize2 q = roundHalfEven (q * 100) := rfl

theorem decimalQuantize2_of_small (q : ℚ)
    (h1 : roundHalfEven (q * 100) < 10 ^ 28)
    (h2 : -(10 ^ 28) < roundHalfEven (q * 100)) :
    decimalQuantize2 q = some (roundHalfEven (q * 100)) := by
  rw [decimalQuantize2]
  exact if_pos ⟨h1, h2⟩

theorem decimalQuantize2_of_large (q : ℚ)
    (h : ¬ (roundHalfEven (q * 100) < 10 ^ 28 ∧ -(10 ^ 28) < roundHalfEven (q * 100))) :
    decimalQuantize2 q = none := by
  rw [decimalQuantize2]
  exact if_neg h

attribute [irreducible] roundHalfEven quantize2 validate_quarter decimalQuantize2

theorem validate_quarterChecked_of_small (q : ℚ)
    (h1 : roundHalfEven (q * 100) < 10 ^ 28)
    (h2 : -(10 ^ 28) < roundHalfEven (q * 100)) :
    validate_quarterChecked q =
      if decimalMod25 (roundHalfEven (q * 100)) ≠ 0 then
        PyOutcome.validationError (toString q ++ " is not divisible by 0.25.")
      else PyOutcome.ok := by
  rw [validate_quarterChecked.eq_def, decimalQuantize2_of_small q h1 h2]

theorem validate_quarterChecked_invalidOperation (q : ℚ)
    (h : ¬ (roundHalfEven (q * 100) < 10 ^ 28 ∧ -(10 ^ 28) < roundHalfEven (q * 100))) :
    validate_quarterChecked q = PyOutcome.invalidOperation := by
  rw [validate_quarterChecked.eq_def, decimalQuantize2_of_large q h]

theorem validate_quarterChecked_ok_iff (q : ℚ)
    (h1 : roundHalfEven (q * 100) < 10 ^ 28)
    (h2 : -(10 ^ 28) < roundHalfEven (q * 100)) :
    validate_quarterChecked q = PyOutcome.ok ↔ (25 : Int) ∣ roundHalfEven (q * 100) := by
  rw [validate_quarterChecked_of_small q h1 h2, decimalMod25, ← tmod25_eq_zero_iff]
  split_ifs with h
  · simp [h]
  · simp [not_not.mp h]

theorem validate_quarterChecked_msg (q : ℚ) (e : String)
    (h : validate_quarterChecked q = PyOutcome.validationError e) :
    e = toString q ++ " is not divisible by 0.25." := by
  by_cases hr : roundHalfEven (q * 100) < 10 ^ 28 ∧ -(10 ^ 28) < roundHalfEven (q * 100)
  · rw [validate_quarterChecked_of_small q hr.1 hr.2] at h
    split_ifs at h with hc
    exact ((PyOutcome.validationError.injEq _ _).mp h).symm
  · rw [validate_quarterChecked_invalidOperation q hr] at h
    cases h

theorem validate_quarterChecked_ok_agrees (q : ℚ)
    (h1 : roundHalfEven (q * 100) < 10 ^ 28)
    (h2 : -(10 ^ 28) < roundHalfEven (q * 100)) :
    (validate_quarterChecked q = PyOutcome.ok ↔ validate_quarter q = Except.ok ()) := by
  rw [validate_quarterChecked_ok_iff q h1 h2, validate_quarter_ok_iff, quantize2_def]

attribute [irreducible] validate_quarterChecked

theorem Character.clean_ok (c : Character) (u : Unit)
    (h : Character.clean c = Except.ok u) :
    (25 : Int) ∣ quantize2 c.total_points ∧ (25 : Int) ∣ quantize2 c.used_fatigue := by
  rw [Character.clean.eq_def] at h
  split at h
  · exact absurd h (by simp)
  · rename_i u1 h1
    exact ⟨validate_quarter_eq_ok _ _ h1, validate_quarter_eq_ok _ _ h⟩

theorem Character.clean_error_of_invalid (c : Character)
    (h : ¬ ((25 : Int) ∣ quantize2 c.total_points ∧ (25 : Int) ∣ quantize2 c.used_fatigue)) :
    ∃ e, Character.clean c = Except.error e := by
  rw [Character.clean.eq_def]
  by_cases h1 : (25 : Int) ∣ quantize2 c.total_points
  · have h2 : ¬ (25 : Int) ∣ quantize2 c.used_fatigue := fun hh => h ⟨h1, hh⟩
    rw [(validate_quarter_ok_iff c.total_points).mpr h1]
    exact ⟨_, validate_quarter_error_of_not_dvd _ h2⟩
  · rw [validate_quarter_error_of_not_dvd _ h1]
    exact ⟨_, rfl⟩

theorem Store.saveCharacter_ok (s : Store) (i : Nat) (c : Character) (s2 : Store)
    (h : Store.saveCharacter s i c = Except.ok s2) :
    (25 : Int) ∣ quantize2 c.total_points ∧ (25 : Int) ∣ quantize2 c.used_fatigue := by
  rw [Store.saveCharacter.eq_def] at h
  split at h
  · exact absurd h (by simp)
  · rename_i u h1
    exact Character.clean_ok c u h1

theorem Store.saveCharacter_error (s : Store) (i : Nat) (c : Character)
    (h : ¬ ((25 : Int) ∣ quantize2 c.total_points ∧ (25 : Int) ∣ quantize2 c.used_fatigue)) :
    ∃ e, Store.saveCharacter s i c = Except.error e := by
  obtain ⟨e, he⟩ := Character.clean_error_of_invalid c h
  exact ⟨e, by rw [Store.saveCharacter.eq_def, he]⟩

theorem Store.saveTrait_ok (s : Store) (i : Nat) (t : Trait) (s2 : Store)
    (h : Store.saveTrait s i t = Except.ok s2) : (25 : Int) ∣ quantize2 t.points := by
  rw [Store.saveTrait.eq_def] at h
  split at h
  · exact absurd h (by simp)
  · rename_i u h1
    exact validate_quarter_eq_ok _ u h1

theorem Store.saveTrait_error (s : Store) (i : Nat) (t : Trait)
    (h : ¬ (25 : Int) ∣ quantize2 t.points) :
    ∃ e, Store.saveTrait s i t = Except.error e :=
  ⟨_, by rw [Store.saveTrait.eq_def,
    show Trait.clean t = _ from validate_quarter_error_of_not_dvd _ h]⟩

theorem Store.saveCharacterSkill_ok (s : Store) (i : Nat) (k : CharacterSkill) (s2 : Store)
    (h : Store.saveCharacterSkill s i k = Except.ok s2) :
    (25 : Int) ∣ quantize2 k.points := by
  rw [Store.saveCharacterSkill.eq_def] at h
  split at h
  · exact absurd h (by simp)
  · rename_i u h1
    exact validate_quarter_eq_ok _ u h1

theorem Store.saveCharacterSkill_error (s : Store) (i : Nat) (k : CharacterSkill)
    (h : ¬ (25 : Int) ∣ quantize2 k.points) :
    ∃ e, Store.saveCharacterSkill s i k = Except.error e :=
  ⟨_, by rw [Store.saveCharacterSkill.eq_def,
    show CharacterSkill.clean k = _ from validate_quarter_error_of_not_dvd _ h]⟩

theorem Store.saveCharacterSpell_ok (s : Store) (i : Nat) (p : CharacterSpell) (s2 : Store)
    (h : Store.saveCharacterSpell s i p = Except.ok s2) :
    (25 : Int) ∣ quantize2 p.points := by
  rw [Store.saveCharacterSpell.eq_def] at h
  split at h
  · exact absurd h (by simp)
  · rename_i u h1
    exact validate_quarter_eq_ok _ u h1

theorem Store.saveCharacterSpell_error (s : Store) (i : Nat) (p : CharacterSpell)
    (h : ¬ (25 : Int) ∣ quantize2 p.points) :
    ∃ e, Store.saveCharacterSpell s i p = Except.error e :=
  ⟨_, by rw [Store.saveCharacterSpell.eq_def,
    show CharacterSpell.clean p = _ from validate_quarter_error_of_not_dvd _ h]⟩

/-! Theorems settling the claims. -/

/-- Claim C1 counterexample: 1e26 is an exact float multiple of 0.25 (its
rounding to two decimal places, 10^28 hundredths, is congruent to 0 modulo
0.25), yet `validate_quarter` does not succeed silently there: the
default-context quantize step overflows the 28-digit precision and raises
`decimal.InvalidOperation`. -/
theorem C1_counterexample_large_multiple :
    validate_quarterChecked ((10 : ℚ) ^ 26) = PyOutcome.invalidOperation
    ∧ (∃ k : Int, ((10 : ℚ) ^ 26) = (k : ℚ) / 4)
    ∧ roundHalfEven ((10 : ℚ) ^ 26 * 100) = 10 ^ 28 := by
  have hr : roundHalfEven ((10 : ℚ) ^ 26 * 100) = 10 ^ 28 := by
    rw [show ((10 : ℚ) ^ 26 * 100) = (((10 : Int) ^ 28 : Int) : ℚ) by push_cast; ring]
    exact roundHalfEven_intCast _
  refine ⟨?_, ⟨4 * 10 ^ 26, by push_cast; ring⟩, hr⟩
  apply validate_quarterChecked_invalidOperation
  rw [hr]
  intro hcon
  exact absurd hcon.1 (lt_irrefl _)

/-- Claim C1 amended: for inputs within the default decimal precision (the
rounded count of hundredths strictly between -10^28 and 10^28, i.e. |f|
below about 1e26), `validate_quarter` succeeds silently iff the value
rounded to two decimal places is congruent to 0 modulo 0.25, a failure
raises a `ValidationError` whose message identifies the offending value,
and every in-range multiple of 0.25 passes; beyond that bound the quantize
step raises `decimal.InvalidOperation` instead. -/
theorem C1_amended_validate_quarter_contract (q : ℚ)
    (h1 : roundHalfEven (q * 100) < 10 ^ 28)
    (h2 : -(10 ^ 28) < roundHalfEven (q * 100)) :
    (validate_quarterChecked q = PyOutcome.ok ↔ (25 : Int) ∣ roundHalfEven (q * 100))
    ∧ (∀ e : String, validate_quarterChecked q = PyOutcome.validationError e →
        e = toString q ++ " is not divisible by 0.25.")
    ∧ (∀ k : Int, -(10 ^ 28) < 25 * k → 25 * k < 10 ^ 28 →
        validate_quarterChecked ((k : ℚ) / 4) = PyOutcome.ok) := by
  refine ⟨validate_quarterChecked_ok_iff q h1 h2,
    fun e h => validate_quarterChecked_msg q e h, fun k hk1 hk2 => ?_⟩
  have hq : roundHalfEven ((k : ℚ) / 4 * 100) = 25 * k := by
    rw [show ((k : ℚ) / 4 * 100) = ((25 * k : Int) : ℚ) by push_cast; ring]
    exact roundHalfEven_intCast _
  rw [validate_quarterChecked_ok_iff _ (by rw [hq]; exact hk2) (by rw [hq]; exact hk1), hq]
  exact ⟨k, rfl⟩

/-- Witness for the amended C1 at the concrete input 0.50 (= 2/4). -/
theorem C1_amended_validate_quarter_contract_witness :
    validate_quarterChecked (((2 : Int) : ℚ) / 4) = PyOutcome.ok := by
  have hq : roundHalfEven (((2 : Int) : ℚ) / 4 * 100) = 50 := by
    rw [show (((2 : Int) : ℚ) / 4 * 100) = ((50 : Int) : ℚ) by push_cast; norm_num]
    exact roundHalfEven_intCast _
  exact (C1_amended_validate_quarter_contract (((2 : Int) : ℚ) / 4)
    (by rw [hq]; norm_num) (by rw [hq]; norm_num)).2.2 2 (by norm_num) (by norm_num)

/-- Claim C2 (code bug): `will()` is supposed to return
`intelligence + bonus_willpower` (15 for this character, as the test suite
expects), but the source reads the undeclared attribute `bonus_will`, so the
call fails with an `AttributeError` (`none`) instead of returning a value. -/
theorem C2_will_reads_undeclared_attribute :
    baseCharacter.will = none
    ∧ baseCharacter.getattr "bonus_will" = none
    ∧ baseCharacter.getattr "bonus_willpower" = some 3
    ∧ baseCharacter.intelligence + baseCharacter.bonus_willpower = 15 :=
  ⟨rfl, rfl, rfl, rfl⟩

/-- Claim C3: `fatigue`, `hitpoints`, `alertness` and `fright` return the
sums of their base and bonus columns; e.g. strength 10 with bonus_fatigue 2
gives fatigue 12. -/
theorem C3_derived_attribute_sums (c : Character) :
    c.fatigue = some (c.strength + c.bonus_fatigue)
    ∧ c.hitpoints = some (c.health + c.bonus_hitpoints)
    ∧ c.alertness = some (c.intelligence + c.bonus_alertness)
    ∧ c.fright = some (c.intelligence + c.bonus_fright)
    ∧ baseCharacter.fatigue = some 12 :=
  ⟨rfl, rfl, rfl, rfl, rfl⟩

/-- Claim C4: `initiative` equals `((intelligence + dexterity) / 4) +
bonus_initiative` (true division); intelligence 12, dexterity 8 and
bonus_initiative 1 give 6. -/
theorem C4_initiative_formula (c : Character) :
    c.initiative = ((c.intelligence : ℚ) + (c.dexterity : ℚ)) / 4 + (c.bonus_initiative : ℚ)
    ∧ baseCharacter.initiative = 6 := by
  refine ⟨rfl, ?_⟩
  simp only [Character.initiative, baseCharacter]
  norm_num

/-- Claim C5: the five encumbrance levels are strength times 2, 4, 6, 12
and 20; strength 5 gives 10 and 100 for the extremes. -/
theorem C5_encumbrance_formulas (c : Character) :
    c.no_encumbrance = c.strength * 2
    ∧ c.light_encumbrance = c.strength * 4
    ∧ c.medium_encumbrance = c.strength * 6
    ∧ c.heavy_encumbrance = c.strength * 12
    ∧ c.extra_heavy_encumbrance = c.strength * 20
    ∧ strengthFiveCharacter.no_encumbrance = 10
    ∧ strengthFiveCharacter.extra_heavy_encumbrance = 100 :=
  ⟨rfl, rfl, rfl, rfl, rfl, rfl, rfl⟩

/-- Claim C6 counterexample: 0.001 is not a multiple of 0.25, yet
`validate_quarter 0.001` succeeds, because the value is first rounded to two
decimal places, giving 0.00. -/
theorem C6_counterexample_one_thousandth :
    validate_quarter ((1 : ℚ) / 1000) = Except.ok ()
    ∧ ¬ ∃ k : Int, ((1 : ℚ) / 1000) = (k : ℚ) / 4 := by
  constructor
  · rw [validate_quarter_ok_iff, quantize2_def,
      roundHalfEven_of_lt_half ((1 : ℚ) / 1000 * 100) 0 (by norm_num) (by norm_num)]
    exact ⟨0, rfl⟩
  · rintro ⟨k, hk⟩
    have h1 : (k : ℚ) * 250 = 1 := by
      field_simp at hk
      linarith
    have h2 : (k * 250 : Int) = 1 := by exact_mod_cast h1
    omega

/-- Claim C6 amended: every value whose rounding to two decimal places is
not a multiple of 0.25 is rejected with a `ValidationError` naming it. -/
theorem C6_amended_rounded_nonmultiple_fails (q : ℚ)
    (h : ¬ (25 : Int) ∣ quantize2 q) :
    validate_quarter q = Except.error (toString q ++ " is not divisible by 0.25.") :=
  validate_quarter_error_of_not_dvd q h

/-- Witness for the amended C6 at the concrete input 0.26. -/
theorem C6_amended_rounded_nonmultiple_fails_witness :
    validate_quarter ((26 : ℚ) / 100)
      = Except.error (toString ((26 : ℚ) / 100) ++ " is not divisible by 0.25.") :=
  C6_amended_rounded_nonmultiple_fails _ (by
    rw [quantize2_eq_of_mul_eq_intCast ((26 : ℚ) / 100) 26 (by norm_num)]
    decide)

/-- Claim C7 (code bug): `fatigue`, `hitpoints`, `alertness` and `fright`
are pure total functions of the stored columns, but `will` — which the claim
also covers — fails on every character (it reads the undeclared
`bonus_will`), so not every derived-attribute method is error-free. -/
theorem C7_derived_methods_total_except_will (c : Character) :
    (∃ v, c.fatigue = some v) ∧ (∃ v, c.hitpoints = some v)
    ∧ (∃ v, c.alertness = some v) ∧ (∃ v, c.fright = some v)
    ∧ c.will = none :=
  ⟨⟨_, rfl⟩, ⟨_, rfl⟩, ⟨_, rfl⟩, ⟨_, rfl⟩, rfl⟩

/-- Claim C8: exactly the five fields `Character.total_points`,
`Character.used_fatigue`, `Trait.points`, `CharacterSkill.points` and
`CharacterSpell.points` carry `validate_quarter`; an accepted write has each
of them an integer multiple of 0.25 at two-decimal precision, and a
violating write is rejected with a `ValidationError` (no new store is
produced, so the store is unchanged). -/
theorem C8_quarter_validated_fields (s : Store) :
    ((floatFieldDecls.filter fun p => p.2.2).map fun p => (p.1, p.2.1))
      = [("Character", "total_points"), ("Character", "used_fatigue"),
         ("Trait", "points"), ("CharacterSkill", "points"), ("CharacterSpell", "points")]
    ∧ (∀ i c s2, Store.saveCharacter s i c = Except.ok s2 →
        (25 : Int) ∣ quantize2 c.total_points ∧ (25 : Int) ∣ quantize2 c.used_fatigue)
    ∧ (∀ i c, ¬ ((25 : Int) ∣ quantize2 c.total_points ∧ (25 : Int) ∣ quantize2 c.used_fatigue) →
        ∃ e, Store.saveCharacter s i c = Except.error e)
    ∧ (∀ i t s2, Store.saveTrait s i t = Except.ok s2 → (25 : Int) ∣ quantize2 t.points)
    ∧ (∀ i t, ¬ (25 : Int) ∣ quantize2 t.points →
        ∃ e, Store.saveTrait s i t = Except.error e)
    ∧ (∀ i k s2, Store.saveCharacterSkill s i k = Except.ok s2 →
        (25 : Int) ∣ quantize2 k.points)
    ∧ (∀ i k, ¬ (25 : Int) ∣ quantize2 k.points →
        ∃ e, Store.saveCharacterSkill s i k = Except.error e)
    ∧ (∀ i p s2, Store.saveCharacterSpell s i p = Except.ok s2 →
        (25 : Int) ∣ quantize2 p.points)
    ∧ (∀ i p, ¬ (25 : Int) ∣ quantize2 p.points →
        ∃ e, Store.saveCharacterSpell s i p = Except.error e) :=
  ⟨rfl,
    fun i c s2 h => Store.saveCharacter_ok s i c s2 h,
    fun i c h => Store.saveCharacter_error s i c h,
    fun i t s2 h => Store.saveTrait_ok s i t s2 h,
    fun i t h => Store.saveTrait_error s i t h,
    fun i k s2 h => Store.saveCharacterSkill_ok s i k s2 h,
    fun i k h => Store.saveCharacterSkill_error s i k h,
    fun i p s2 h => Store.saveCharacterSpell_ok s i p s2 h,
    fun i p h => Store.saveCharacterSpell_error s i p h⟩

/-- Witness for C8: the trait with points 0.26 is rejected at a concrete
store, and the validator registry equality is checked there too. -/
theorem C8_quarter_validated_fields_witness :
    ((floatFieldDecls.filter fun p => p.2.2).map fun p => (p.1, p.2.1))
      = [("Character", "total_points"), ("Character", "used_fatigue"),
         ("Trait", "points"), ("CharacterSkill", "points"), ("CharacterSpell", "points")]
    ∧ (∃ e, Store.saveTrait emptyStore 1 badTrait = Except.error e) := by
  refine ⟨(C8_quarter_validated_fields emptyStore).1,
    (C8_quarter_validated_fields emptyStore).2.2.2.2.1 1 badTrait ?_⟩
  rw [show badTrait.points = (26 : ℚ) / 100 from rfl,
    quantize2_eq_of_mul_eq_intCast ((26 : ℚ) / 100) 26 (by norm_num)]
  decide

/-- Claim C9: deleting character `cid` removes every `Trait`, `HitLocation`,
`CharacterSkill`, `CharacterSpell` and `Possession` row referencing it,
keeps each such row of other characters, keeps other characters, and leaves
campaigns, skill sets, skills, spells and items untouched. -/
theorem C9_delete_character_cascades (s : Store) (cid : Nat) :
    (∀ p ∈ (s.deleteCharacter cid).traits, p.2.character ≠ cid)
    ∧ (∀ p ∈ (s.deleteCharacter cid).hitLocations, p.2.character ≠ cid)
    ∧ (∀ p ∈ (s.deleteCharacter cid).characterSkills, p.2.character ≠ cid)
    ∧ (∀ p ∈ (s.deleteCharacter cid).characterSpells, p.2.character ≠ cid)
    ∧ (∀ p ∈ (s.deleteCharacter cid).possessions, p.2.character ≠ cid)
    ∧ (∀ p ∈ s.traits, p.2.character ≠ cid → p ∈ (s.deleteCharacter cid).traits)
    ∧ (∀ p ∈ s.hitLocations, p.2.character ≠ cid → p ∈ (s.deleteCharacter cid).hitLocations)
    ∧ (∀ p ∈ s.characterSkills, p.2.character ≠ cid → p ∈ (s.deleteCharacter cid).characterSkills)
    ∧ (∀ p ∈ s.characterSpells, p.2.character ≠ cid → p ∈ (s.deleteCharacter cid).characterSpells)
    ∧ (∀ p ∈ s.possessions, p.2.character ≠ cid → p ∈ (s.deleteCharacter cid).possessions)
    ∧ (∀ p ∈ s.characters, p.1 ≠ cid → p ∈ (s.deleteCharacter cid).characters)
    ∧ (s.deleteCharacter cid).campaigns = s.campaigns
    ∧ (s.deleteCharacter cid).skillsets = s.skillsets
    ∧ (s.deleteCharacter cid).skills = s.skills
    ∧ (s.deleteCharacter cid).spells = s.spells
    ∧ (s.deleteCharacter cid).items = s.items := by
  simp only [Store.deleteCharacter]
  exact ⟨fun p hp => of_decide_eq_true (List.mem_filter.mp hp).2,
    fun p hp => of_decide_eq_true (List.mem_filter.mp hp).2,
    fun p hp => of_decide_eq_true (List.mem_filter.mp hp).2,
    fun p hp => of_decide_eq_true (List.mem_filter.mp hp).2,
    fun p hp => of_decide_eq_true (List.mem_filter.mp hp).2,
    fun p hp hne => List.mem_filter.mpr ⟨hp, decide_eq_true hne⟩,
    fun p hp hne => List.mem_filter.mpr ⟨hp, decide_eq_true hne⟩,
    fun p hp hne => List.mem_filter.mpr ⟨hp, decide_eq_true hne⟩,
    fun p hp hne => List.mem_filter.mpr ⟨hp, decide_eq_true hne⟩,
    fun p hp hne => List.mem_filter.mpr ⟨hp, decide_eq_true hne⟩,
    fun p hp hne => List.mem_filter.mpr ⟨hp, decide_eq_true hne⟩,
    trivial, trivial, trivial, trivial, trivial⟩

/-- Witness for C9 at a concrete store: a trait of character 2 survives the
deletion of character 1, and the item table is untouched. -/
theorem C9_delete_character_cascades_witness :
    (2, trait2) ∈ (sampleStore.deleteCharacter 1).traits
    ∧ (sampleStore.deleteCharacter 1).items = sampleStore.items := by
  refine ⟨(C9_delete_character_cascades sampleStore 1).2.2.2.2.2.1 (2, trait2) ?_ ?_,
    (C9_delete_character_cascades sampleStore 1).2.2.2.2.2.2.2.2.2.2.2.2.2.2.2⟩
  · simp [sampleStore]
  · decide

/-- Claim C10 counterexample: the rounding of -1e30 to two decimal places
is the negative integer multiple 25 * (-4 * 10^30) of 0.25 hundredths, yet
`validate_quarter` does not return without raising there: the
default-context quantize step raises `decimal.InvalidOperation`. -/
theorem C10_counterexample_large_negative :
    validate_quarterChecked (-(10 : ℚ) ^ 30) = PyOutcome.invalidOperation
    ∧ ∃ k : Int, k < 0 ∧ roundHalfEven (-(10 : ℚ) ^ 30 * 100) = 25 * k := by
  have hr : roundHalfEven (-(10 : ℚ) ^ 30 * 100) = 25 * (-4 * 10 ^ 30) := by
    rw [show (-(10 : ℚ) ^ 30 * 100) = ((25 * (-4 * 10 ^ 30) : Int) : ℚ) by push_cast; ring]
    exact roundHalfEven_intCast _
  refine ⟨?_, ⟨-4 * 10 ^ 30, by norm_num, hr⟩⟩
  apply validate_quarterChecked_invalidOperation
  rw [hr]
  rintro ⟨-, hcon⟩
  norm_num at hcon

/-- Claim C10 amended: a value whose two-decimal rounding is a negative
integer multiple of 0.25 within the default decimal precision (hundredths
strictly above -10^28) is accepted by `validate_quarter` (the remainder
comparison still yields zero for negative multiples), and nothing restricts
a quarter-constrained field such as `Trait.points` to non-negative values:
a trait with points -0.25 validates.  For negative multiples beyond the
precision bound the quantize step raises `decimal.InvalidOperation`. -/
theorem C10_amended_negative_multiples_accepted (q : ℚ)
    (h : ∃ k : Int, k < 0 ∧ -(10 ^ 28) < 25 * k ∧ roundHalfEven (q * 100) = 25 * k) :
    validate_quarterChecked q = PyOutcome.ok ∧ Trait.clean negTrait = Except.ok () := by
  obtain ⟨k, hk, hbound, hq⟩ := h
  constructor
  · have h1 : roundHalfEven (q * 100) < 10 ^ 28 := by rw [hq]; omega
    rw [validate_quarterChecked_ok_iff q h1 (by rw [hq]; exact hbound), hq]
    exact ⟨k, rfl⟩
  · show validate_quarter negTrait.points = Except.ok ()
    rw [show negTrait.points = ((-1 : Int) : ℚ) / 4 from by norm_num [negTrait],
      validate_quarter_ok_iff, quantize2_quarter]
    exact ⟨-1, rfl⟩

/-- Witness for the amended C10 at the concrete input -0.25. -/
theorem C10_amended_negative_multiples_accepted_witness :
    validate_quarterChecked (-(1 : ℚ) / 4) = PyOutcome.ok
    ∧ Trait.clean negTrait = Except.ok () :=
  C10_amended_negative_multiples_accepted (-(1 : ℚ) / 4)
    ⟨-1, by norm_num, by norm_num, by
      rw [show (-(1 : ℚ) / 4 * 100) = ((25 * -1 : Int) : ℚ) by push_cast; ring]
      exact roundHalfEven_intCast _⟩
